import Mathlib

/-
  Verification of the BLELog connection-lifecycle and data-pipeline subsystem.

  Shallow embedding of:
    - blelog/ActiveConnection.py  (ActiveConnection: run, _connect, _check_for_timeout,
      _notif_callback, _disconnected_callback, _do_disconnect)
    - blelog/Scanner.py           (Scanner: __init__, run, _update_seen_devices)
    - blelog/consumers/log2csv.py (CSVLogger: run; Consumer_log2csv: run, _log_to_file,
      file_path)

  Modelling conventions:
    - Time is in nanoseconds, as produced by time.monotonic_ns().  The source divides
      ns differences by 1e9 and compares against float timeouts in seconds; we keep
      timeouts in ns and compare directly, which gives the same verdicts.
    - Python monotonic clocks never run backwards; Nat truncated subtraction gives the
      same comparison verdicts as the source's float arithmetic for elapsed times.
    - Exceptions are explicit outcome values; asynchronous callbacks and loop
      iterations are interleaved through explicit event lists.
    - Log output is a list of structured events, since several claims are about which
      warnings or errors are emitted.
-/

namespace BLELog

/-- ConnectionState from blelog/ActiveConnection.py. -/
inductive ConnectionState where
  | CONNECTING
  | CONNECTED
  | DISCONNECTED
deriving DecidableEq

/-- SeenDeviceState from blelog/Scanner.py. -/
inductive SeenDeviceState where
  | NOT_SEEN
  | RECENTLY_SEEN
deriving DecidableEq

/-- The distinct log messages emitted by the embedded code paths, keeping the
string arguments the source interpolates into each message. -/
inductive LogEvent where
  | warnTimeoutExpired (dev charName : String)
  | warnNeverReceived (dev charName : String)
  | warnConnectionLost (dev : String)
  | warnFailedConnect (dev : String)
  | warnDisconnected (dev : String)
  | warnFailedDisconnect (dev : String)
  | errQueueFull (dev : String)
  | errDecoder (charName : String)
  | errConnectionException (dev : String)
  | errScanner
  | warnScannerTimeout
  | errCSVLogger (path : String)
  | errConsumerLog2csv
deriving DecidableEq

/-- A line of an output CSV file: either the header row written on file creation or
a data row written from decoded notification data. -/
inductive FileLine where
  | headerLine (cols : List String)
  | dataLine (row : List Int)
deriving DecidableEq

/-- Characteristic from blelog/Configuration.py, as used by the embedded modules.
`timeout` is in ns (`None` disables the health check for this characteristic).
`data_decoder` returns `none` when the Python decoder raises an exception. -/
structure Characteristic where
  name : String
  uuid : String
  timeout : Option Nat
  column_headers : List String
  data_decoder : List Nat → Option (List (List Int))

/-- The slice of Configuration consumed by the embedded modules.  Name-match
patterns are modelled as predicates (the regex engine is an external capability). -/
structure Configuration where
  connect_device_name_regexes : List (String → Bool)
  connect_device_adrs : List String
  device_aliases : List (String × String)
  characteristics : List Characteristic
  initial_characteristic_timeout : Option Nat
  seen_timeout : Nat
  log2csv_folder_name : String

/-- NotifData from blelog/ConsumerMgr.py (constructed in _notif_callback). -/
structure NotifData where
  device_adr : String
  device_name : String
  characteristic : Characteristic
  data : List (List Int)
  raw : List Nat

/-- asyncio.Queue: `maxsize = 0` means unbounded (the asyncio default). -/
structure QueueModel where
  maxsize : Nat
  items : List NotifData

/-- asyncio.Queue.full(). -/
def QueueModel.full (q : QueueModel) : Bool :=
  if q.maxsize = 0 then false else decide (q.maxsize ≤ q.items.length)

/-- asyncio.Queue.put_nowait: returns the new queue and whether QueueFull was
raised; a full queue is left unchanged. -/
def QueueModel.put_nowait (q : QueueModel) (x : NotifData) : QueueModel × Bool :=
  if q.full then (q, true) else ({ q with items := q.items ++ [x] }, false)

/-- Python-dict lookup on an association list. -/
def alistGet {β : Type} : List (String × β) → String → Option β
  | [], _ => none
  | (k, v) :: rest, key => if k = key then some v else alistGet rest key

/-- Python-dict assignment on an association list. -/
def alistSet {β : Type} : List (String × β) → String → β → List (String × β)
  | [], key, v => [(key, v)]
  | (k, w) :: rest, key, v =>
      if k = key then (k, v) :: rest else (k, w) :: alistSet rest key v

/-! ### ActiveConnection (blelog/ActiveConnection.py) -/

/-- The mutable state of one ActiveConnection, plus instrumentation the claims are
about: the number of `con.disconnect()` calls awaited, the log, and the sequence of
values assigned to `self.state`. -/
structure ConnState where
  adr : String
  name : String
  state : ConnectionState
  did_disconnect : Bool
  hasCon : Bool
  initial_connection_time : Option Nat
  last_notif : List (String × Option Nat)
  output : QueueModel
  disconnectAttempts : Nat
  log : List LogEvent
  stateTrace : List ConnectionState

/-- Assignment to `self.state`, recording the trace of states taken. -/
def setState (s : ConnState) (st : ConnectionState) : ConnState :=
  { s with state := st, stateTrace := s.stateTrace ++ [st] }

/-- ActiveConnection.__init__ : state CONNECTING, no disconnect yet, last_notif
maps every configured characteristic uuid to None. -/
def initConn (cfg : Configuration) (adr name : String) (output : QueueModel) : ConnState :=
  { adr := adr
    name := name
    state := ConnectionState.CONNECTING
    did_disconnect := false
    hasCon := false
    initial_connection_time := none
    last_notif := cfg.characteristics.map (fun c => (c.uuid, none))
    output := output
    disconnectAttempts := 0
    log := []
    stateTrace := [ConnectionState.CONNECTING] }

/-- `self.last_notif[char.uuid]` (every configured uuid is present after init). -/
def lastNotifOf (s : ConnState) (uuid : String) : Option Nat :=
  match alistGet s.last_notif uuid with
  | some v => v
  | none => none

/-- ActiveConnection._do_disconnect: if a client exists, await con.disconnect()
(counted as one transport disconnect attempt), log the outcome, and in the
`finally` clause set did_disconnect.  `ok` is whether the transport reported a
successful disconnect (which only changes the logged message). -/
def doDisconnect (s : ConnState) (ok : Bool) : ConnState :=
  if s.hasCon then
    { s with
      disconnectAttempts := s.disconnectAttempts + 1
      log := s.log ++ [if ok then LogEvent.warnDisconnected s.name
                       else LogEvent.warnFailedDisconnect s.name]
      did_disconnect := true }
  else s

/-- ActiveConnection._notif_callback: records the timestamp against the
characteristic FIRST, then decodes; a decoder exception is logged, an empty
decode is dropped silently, otherwise the record is pushed with put_nowait and
a full queue drops the record with an error log. -/
def notif_callback (s : ConnState) (char : Characteristic) (now : Nat)
    (data : List Nat) : ConnState :=
  let s := { s with last_notif := alistSet s.last_notif char.uuid (some now) }
  match char.data_decoder data with
  | none => { s with log := s.log ++ [LogEvent.errDecoder char.name] }
  | some decoded =>
      if decoded.length = 0 then s
      else
        let result : NotifData :=
          { device_adr := s.adr, device_name := s.name, characteristic := char
            data := decoded, raw := data }
        let put := s.output.put_nowait result
        if put.2 then
          { s with output := put.1, log := s.log ++ [LogEvent.errQueueFull s.name] }
        else
          { s with output := put.1 }

/-- How an exception propagates out of _check_for_timeout: ACE is
ActiveConnectionException (caught by the run loop's `except` clause), generic is
any other exception (only caught by run's outer handler). -/
inductive RaiseKind where
  | ace
  | generic
deriving DecidableEq

/-- The body of ActiveConnection._check_for_timeout, iterating over the
characteristic list.  Returns the updated state and the exception that aborted
the iteration, if any.  `ok` is threaded to _do_disconnect. -/
def checkChars (cfg : Configuration) (ok : Bool) (now : Nat) (s : ConnState) :
    List Characteristic → ConnState × Option RaiseKind
  | [] => (s, none)
  | char :: rest =>
      match char.timeout with
      | none => checkChars cfg ok now s rest
      | some timeout =>
          match lastNotifOf s char.uuid with
          | some last_notif =>
              -- Check if normal timeout expired
              if now - last_notif > timeout then
                (doDisconnect
                  { s with log := s.log ++ [LogEvent.warnTimeoutExpired s.name char.name] }
                  ok,
                 some RaiseKind.ace)
              else checkChars cfg ok now s rest
          | none =>
              match cfg.initial_characteristic_timeout with
              | none => checkChars cfg ok now s rest
              | some initial =>
                  match s.initial_connection_time with
                  | none => (s, some RaiseKind.generic)
                  | some t_init =>
                      -- Check if initial timeout expired
                      if now - t_init > timeout + initial then
                        checkChars cfg ok now
                          (doDisconnect
                            { s with
                              log := s.log ++ [LogEvent.warnNeverReceived s.name char.name] }
                            ok)
                          rest
                      else checkChars cfg ok now s rest

/-- ActiveConnection._check_for_timeout. -/
def check_for_timeout (cfg : Configuration) (ok : Bool) (now : Nat) (s : ConnState) :
    ConnState × Option RaiseKind :=
  checkChars cfg ok now s cfg.characteristics

/-- An occurrence observed by the connected run loop: one polling iteration
(with the halt flag as sampled at the loop head), an asynchronous notification
for a characteristic uuid, or the transport's disconnected_callback firing. -/
inductive Event where
  | poll (now : Nat) (halt : Bool)
  | notif (uuid : String) (now : Nat) (raw : List Nat)
  | transportDisconnect
deriving Inhabited

/-- Whether an event is a notification for the given characteristic uuid. -/
def notifFor (uuid : String) : Event → Bool
  | Event.notif u _ _ => u == uuid
  | _ => false

/-- How the `while not halt.is_set()` loop of ActiveConnection.run ended:
normally because halt was set, by an exception, or not at all within the
supplied event list (the connection is still running). -/
inductive LoopExit where
  | haltExit
  | raised (k : RaiseKind)
  | ranOut
deriving DecidableEq

/-- The steady-state loop of ActiveConnection.run (lines 82-91), driven by an
event list.  A poll iteration checks did_disconnect and then awaits
_check_for_timeout; callbacks run between iterations. -/
def connLoop (cfg : Configuration) (ok : Bool) :
    List Event → ConnState → ConnState × LoopExit
  | [], s => (s, LoopExit.ranOut)
  | Event.transportDisconnect :: rest, s =>
      connLoop cfg ok rest { s with did_disconnect := true }
  | Event.notif uuid now raw :: rest, s =>
      match cfg.characteristics.find? (fun c => c.uuid == uuid) with
      | some char => connLoop cfg ok rest (notif_callback s char now raw)
      | none => connLoop cfg ok rest s
  | Event.poll now halt :: rest, s =>
      if halt then (s, LoopExit.haltExit)
      else if s.did_disconnect then
        ({ s with log := s.log ++ [LogEvent.warnConnectionLost s.name] },
         LoopExit.raised RaiseKind.ace)
      else
        match check_for_timeout cfg ok now s with
        | (s', some k) => (s', LoopExit.raised k)
        | (s', none) => connLoop cfg ok rest s'

/-- Outcome of the `await self._connect(...)` call: success (connected,
subscribed, state set to CONNECTED), an ActiveConnectionException-normalized
connect failure, or an exception raised while enabling notifications (which is
not an ActiveConnectionException). -/
inductive ConnectOutcome where
  | ok
  | fail
  | failSubscribe
deriving DecidableEq

/-- The environment of one ActiveConnection.run invocation. -/
structure Env where
  pre_disconnect : Bool
  connect : ConnectOutcome
  t_connect : Nat
  disconnect_ok : Bool
  events : List Event

/-- The `finally` clause of the inner try (await _do_disconnect) followed by the
outer `finally` (state = DISCONNECTED). -/
def finalizeConn (s : ConnState) (ok : Bool) : ConnState :=
  setState (doDisconnect s ok) ConnectionState.DISCONNECTED

/-- The outer `except Exception` handler of ActiveConnection.run: log the error
and set did_disconnect. -/
def outerExcept (s : ConnState) : ConnState :=
  { s with log := s.log ++ [LogEvent.errConnectionException s.name], did_disconnect := true }

/-- The steady-state loop followed by the exception-dependent teardown of
ActiveConnection.run: an ActiveConnectionException is absorbed by the inner
`except` clause, any other exception additionally passes through the outer
handler; both run the inner `finally` (_do_disconnect) and the outer `finally`
(state = DISCONNECTED).  The run is unfinished only when the event list ran out
while the loop was still going. -/
def loopAndFinalize (cfg : Configuration) (ok : Bool) (events : List Event)
    (s : ConnState) : ConnState × Bool :=
  match connLoop cfg ok events s with
  | (s', LoopExit.ranOut) => (s', false)
  | (s', LoopExit.haltExit) => (finalizeConn s' ok, true)
  | (s', LoopExit.raised RaiseKind.ace) => (finalizeConn s' ok, true)
  | (s', LoopExit.raised RaiseKind.generic) =>
      (setState (outerExcept (doDisconnect s' ok)) ConnectionState.DISCONNECTED, true)

/-- The connection state right after a fully successful _connect: state set to
CONNECTED (line 143) and initial_connection_time recorded (line 80). -/
def connectedState (cfg : Configuration) (adr name : String) (output : QueueModel)
    (tc : Nat) : ConnState :=
  let s := { initConn cfg adr name output with hasCon := true, did_disconnect := false }
  let s := setState s ConnectionState.CONNECTED
  { s with initial_connection_time := some tc }

/-- ActiveConnection.run, from a freshly-initialised connection.  Returns the
final state and whether the run finished (False only when the event list ran
out while the steady-state loop was still running, in which case teardown has
not yet been reached). -/
def runConn (cfg : Configuration) (adr name : String) (output : QueueModel)
    (env : Env) : ConnState × Bool :=
  let s := { initConn cfg adr name output with hasCon := true }
  let s := { s with did_disconnect := env.pre_disconnect }
  if s.did_disconnect then
    -- raise ActiveConnectionException() before connecting; except: pass
    (finalizeConn s env.disconnect_ok, true)
  else
    match env.connect with
    | ConnectOutcome.fail =>
        (finalizeConn
          { s with log := s.log ++ [LogEvent.warnFailedConnect s.name] }
          env.disconnect_ok, true)
    | ConnectOutcome.failSubscribe =>
        -- exception past the inner except; inner finally, outer except, outer finally
        (setState (outerExcept (doDisconnect s env.disconnect_ok))
          ConnectionState.DISCONNECTED, true)
    | ConnectOutcome.ok =>
        loopAndFinalize cfg env.disconnect_ok env.events
          (connectedState cfg adr name output env.t_connect)

/-! ### Scanner (blelog/Scanner.py) -/

/-- Modelled from the spec: `blelog/Util.py` (normalise_adr) is not under src.
The spec only requires that every address key be put into "a single normalized
representation"; we model the canonical form as the uppercased address string. -/
def normalise_adr (adr : String) : String := String.mk (adr.data.map Char.toUpper)

/-- SeenDevice from blelog/Scanner.py. -/
structure SeenDevice where
  adr : String
  alias_ : Option String
  state : SeenDeviceState
  name : Option String
  last_seen : Option Nat
  rssi : Option Int
deriving DecidableEq

/-- A BLEDevice as returned by discovery. -/
structure ScannedDevice where
  address : String
  name : Option String

/-- AdvertisementData as returned by discovery. -/
structure AdvertisementData where
  rssi : Int

/-- The record Scanner.__init__ builds for one fixed/pre-specified address. -/
def scannerInitDev (cfg : Configuration) (adr : String) : SeenDevice :=
  { adr := adr
    alias_ := alistGet cfg.device_aliases adr
    state := SeenDeviceState.NOT_SEEN
    name := none
    last_seen := none
    rssi := none }

/-- Scanner.__init__: pre-populate seen_devices with every fixed/pre-specified
address, stored under the address exactly as it appears in the configuration. -/
def scannerInit (cfg : Configuration) : List (String × SeenDevice) :=
  cfg.connect_device_adrs.foldl
    (fun tbl adr => alistSet tbl adr (scannerInitDev cfg adr)) []

/-- The inner `for r in self.name_regexes` loop of _update_seen_devices: a scan
result whose name matches a pattern is inserted as a new RECENTLY_SEEN device
(a device without a name never matches; every matching pattern re-assigns the
same record). -/
def tryMatchInsert (cfg : Configuration) (adr : String) (dev : ScannedDevice)
    (adv : AdvertisementData) (t : Nat) :
    List (String → Bool) → List (String × SeenDevice) → List (String × SeenDevice)
  | [], tbl => tbl
  | r :: rest, tbl =>
      match dev.name with
      | none => tryMatchInsert cfg adr dev adv t rest tbl
      | some n =>
          if r n then
            tryMatchInsert cfg adr dev adv t rest
              (alistSet tbl adr
                { adr := adr
                  alias_ := alistGet cfg.device_aliases adr
                  state := SeenDeviceState.RECENTLY_SEEN
                  name := dev.name
                  last_seen := some t
                  rssi := some adv.rssi })
          else tryMatchInsert cfg adr dev adv t rest tbl

/-- The per-scan-result body of the first loop of _update_seen_devices. -/
def updateStep (cfg : Configuration) (t : Nat) (tbl : List (String × SeenDevice))
    (p : ScannedDevice × AdvertisementData) : List (String × SeenDevice) :=
  let adr := normalise_adr p.1.address
  match alistGet tbl adr with
  | some dev =>
      -- Known device, update information:
      alistSet tbl adr
        { dev with
          last_seen := some t
          name := p.1.name
          rssi := some p.2.rssi
          state := SeenDeviceState.RECENTLY_SEEN }
  | none =>
      -- Unknown device, check if name matches:
      tryMatchInsert cfg adr p.1 p.2 t cfg.connect_device_name_regexes tbl

/-- The seen-recently timeout pass of _update_seen_devices. -/
def ageStep (cfg : Configuration) (now : Nat) (p : String × SeenDevice) :
    String × SeenDevice :=
  (p.1,
   if p.2.state = SeenDeviceState.RECENTLY_SEEN then
     match p.2.last_seen with
     | some last_seen =>
         if now - last_seen > cfg.seen_timeout then
           { p.2 with state := SeenDeviceState.NOT_SEEN }
         else p.2
     | none => p.2
   else p.2)

/-- Scanner._update_seen_devices.  `t` is the timestamp taken after the scan;
`now` is the fresh monotonic_ns read used by the seen-recently timeout pass. -/
def update_seen_devices (cfg : Configuration) (tbl : List (String × SeenDevice))
    (devices : List (ScannedDevice × AdvertisementData)) (t : Nat) (now : Nat) :
    List (String × SeenDevice) :=
  ((devices.foldl (updateStep cfg t) tbl).map (ageStep cfg now))

/-- One iteration of the Scanner.run loop: a completed discovery scan, an
asyncio.TimeoutError from the scan, or any other exception raised inside the
loop body. -/
inductive ScanCycle where
  | ok (devices : List (ScannedDevice × AdvertisementData)) (t : Nat) (now : Nat)
  | scanTimeout
  | exc

/-- The Scanner's externally visible state. -/
structure ScannerState where
  seen_devices : List (String × SeenDevice)
  log : List LogEvent
  halt : Bool

/-- Scanner.run: loop while not halted; a scan timeout is logged as a warning and
the loop continues; any other exception is logged as an error and sets the
process-wide halt flag, ending the loop. -/
def scannerRun (cfg : Configuration) : List ScanCycle → ScannerState → ScannerState
  | [], s => s
  | c :: rest, s =>
      if s.halt then s
      else
        match c with
        | ScanCycle.ok devices t now =>
            scannerRun cfg rest
              { s with seen_devices := update_seen_devices cfg s.seen_devices devices t now }
        | ScanCycle.scanTimeout =>
            scannerRun cfg rest { s with log := s.log ++ [LogEvent.warnScannerTimeout] }
        | ScanCycle.exc =>
            { s with log := s.log ++ [LogEvent.errScanner], halt := true }

/-! ### CSV consumer (blelog/consumers/log2csv.py) -/

/-- One iteration of the CSVLogger.run drain loop: an item obtained from the
input queue, an asyncio.TimeoutError from the 0.5s wait (pass), or an exception
(`fnf` distinguishes FileNotFoundError from any other exception). -/
inductive CSVEvent where
  | item (d : NotifData)
  | qTimeout
  | exc (fnf : Bool)

/-- The observable outcome of one CSVLogger.run invocation. -/
structure CSVResult where
  createdNew : Bool
  written : List FileLine
  closeCount : Nat
  active : Bool
  log : List LogEvent
  halt : Bool

/-- The drain loop of CSVLogger.run: items are written as data rows and flushed;
timeouts pass; a FileNotFoundError is logged without halting; any other
exception is logged and sets the process-wide halt flag. -/
def csvLoggerLoop (file_path : String) :
    List CSVEvent → List FileLine → List LogEvent → (List FileLine × List LogEvent × Bool)
  | [], written, log => (written, log, false)
  | CSVEvent.item d :: rest, written, log =>
      csvLoggerLoop file_path rest (written ++ d.data.map FileLine.dataLine) log
  | CSVEvent.qTimeout :: rest, written, log =>
      csvLoggerLoop file_path rest written log
  | CSVEvent.exc fnf :: _, written, log =>
      (written, log ++ [LogEvent.errCSVLogger file_path], !fnf)

/-- CSVLogger.run.  `fileExists` is whether the target file already exists;
`openFail` is `some fnf` when opening the file raises (fnf: FileNotFoundError,
otherwise a generic exception); on a successful open of a fresh file the column
headers are written as the first line, an existing file is opened for append
with no header written.  The `finally` clause clears `active` and closes the
file handle when one was opened. -/
def csvLoggerRun (file_path : String) (column_headers : List String)
    (fileExists : Bool) (openFail : Option Bool) (events : List CSVEvent) : CSVResult :=
  match openFail with
  | some fnf =>
      { createdNew := false
        written := []
        closeCount := 0
        active := false
        log := [LogEvent.errCSVLogger file_path]
        halt := !fnf }
  | none =>
      let init : List FileLine :=
        if fileExists then [] else [FileLine.headerLine column_headers]
      let res := csvLoggerLoop file_path events init []
      { createdNew := !fileExists
        written := res.1
        closeCount := 1
        active := false
        log := res.2.1
        halt := res.2.2 }

/-- Python str.replace for a single-character pattern (the only form the source
uses), as a character map. -/
def replaceChar (s : String) (old new : Char) : String :=
  String.mk (s.data.map (fun c => if c = old then new else c))

/-- Consumer_log2csv.file_path: alias lookup, separator normalisation, and space
normalisation, joined onto the output folder (os.path.join, POSIX separator). -/
def file_path (cfg : Configuration) (device_adr : String) (char : Characteristic) :
    String :=
  let name :=
    match alistGet cfg.device_aliases device_adr with
    | some a => a
    | none =>
        let name := device_adr
        let name := replaceChar device_adr ':' '_'
        name
  let n := name ++ "_" ++ char.name ++ ".csv"
  let n := replaceChar n ' ' '_'
  cfg.log2csv_folder_name ++ "/" ++ n

/-- A per-file writer as seen from the consumer: the CSVLogger's `active` flag,
its input queue, and the headers it was created with. -/
structure WriterEntry where
  active : Bool
  queue : List NotifData
  column_headers : List String

/-- The Consumer_log2csv's externally visible state. -/
structure ConsumerState where
  file_outputs : List (String × WriterEntry)
  tasksSpawned : Nat
  log : List LogEvent
  halt : Bool

/-- Consumer_log2csv._log_to_file: create (and spawn) a writer for an unseen
file path, then enqueue the record only when that writer is still active. -/
def log_to_file (cfg : Configuration) (s : ConsumerState) (d : NotifData) :
    ConsumerState :=
  let p := file_path cfg d.device_adr d.characteristic
  let s1 :=
    match alistGet s.file_outputs p with
    | none =>
        -- File not yet opened, open:
        { s with
          file_outputs :=
            alistSet s.file_outputs p
              { active := true, queue := [], column_headers := d.characteristic.column_headers }
          tasksSpawned := s.tasksSpawned + 1 }
    | some _ => s
  match alistGet s1.file_outputs p with
  | some w =>
      if w.active then
        -- Open, write:
        { s1 with file_outputs := alistSet s1.file_outputs p { w with queue := w.queue ++ [d] } }
      else s1
  | none => s1

/-- One iteration of the Consumer_log2csv.run loop. -/
inductive ConsEvent where
  | item (d : NotifData)
  | qTimeout
  | exc

/-- Consumer_log2csv.run: route each dequeued record through _log_to_file; an
asyncio.TimeoutError passes; any other exception is logged and sets the
process-wide halt flag, ending the loop. -/
def consumerRun (cfg : Configuration) : List ConsEvent → ConsumerState → ConsumerState
  | [], s => s
  | e :: rest, s =>
      match e with
      | ConsEvent.item d => consumerRun cfg rest (log_to_file cfg s d)
      | ConsEvent.qTimeout => consumerRun cfg rest s
      | ConsEvent.exc =>
          { s with log := s.log ++ [LogEvent.errConsumerLog2csv], halt := true }

/-! ### Concrete fixtures (values from config.py) -/

/-- The ppg decoder slot: a decoder that yields one row per notification. -/
def decode_ppg : List Nat → Option (List (List Int)) := fun _ => some [[1, 2]]

/-- A decoder that models a decoder raising an exception on every payload. -/
def decode_raising : List Nat → Option (List (List Int)) := fun _ => none

/-- The ppg_red characteristic of config.py (timeout 1.5 s = 1500000000 ns). -/
def ppg_red : Characteristic :=
  { name := "ppg_red"
    uuid := "u1"
    timeout := some 1500000000
    column_headers := ["index", "ppg red"]
    data_decoder := decode_ppg }

/-- A configuration mirroring config.py restricted to the ppg_red characteristic,
with the 10 s initial characteristic timeout. -/
def cfg0 : Configuration :=
  { connect_device_name_regexes := []
    connect_device_adrs := ["EB:E5:31:BF:2E:B5"]
    device_aliases := [("EB:E5:31:BF:2E:B5", "SP-Case")]
    characteristics := [ppg_red]
    initial_characteristic_timeout := some 10000000000
    seen_timeout := 20000000000
    log2csv_folder_name := "log_data" }

/-- An unbounded output queue (the asyncio default). -/
def q0 : QueueModel := { maxsize := 0, items := [] }

/-- A connected ActiveConnection for cfg0 that has never received a
notification: established at monotonic time 0, last_notif all None. -/
def s_grace : ConnState :=
  let s := { initConn cfg0 "EB:E5:31:BF:2E:B5" "SP-Case" q0 with hasCon := true }
  let s := setState s ConnectionState.CONNECTED
  { s with initial_connection_time := some 0 }

/-- An environment whose run connects at time 0, receives one ppg_red
notification at 1 s, and then polls at 4 s with nothing further received:
the 1.5 s characteristic timeout has expired at that poll. -/
def env_timeout : Env :=
  { pre_disconnect := false
    connect := ConnectOutcome.ok
    t_connect := 0
    disconnect_ok := true
    events := [Event.notif "u1" 1000000000 [], Event.poll 4000000000 false] }

/-- The key set of a Python-dict model. -/
def keysOf {β : Type} (l : List (String × β)) : List String := l.map Prod.fst

/-- Recognises the warning logged by the expired-characteristic-timeout branch. -/
def isTimeoutWarn : LogEvent → Bool
  | LogEvent.warnTimeoutExpired _ _ => true
  | _ => false

/-- Recognises a header line of an output file. -/
def isHeader : FileLine → Bool
  | FileLine.headerLine _ => true
  | _ => false

/-- Recognises an exception iteration of the CSVLogger drain loop. -/
def isCSVExc : CSVEvent → Bool
  | CSVEvent.exc _ => true
  | _ => false

/-- A schedule of run-loop events in which, at every polling iteration, the last
notification recorded for the given characteristic uuid is at most `T` old (the
characteristic timeout can never be found expired).  `last` is the time of the
last notification seen so far. -/
def timeoutSafe (uuid : String) (T : Nat) : Option Nat → List Event → Bool
  | _, [] => true
  | last, Event.notif u t _ :: rest =>
      timeoutSafe uuid T (if u == uuid then some t else last) rest
  | last, Event.poll t _ :: rest =>
      (match last with
       | some t0 => !decide (t0 + T < t)
       | none => true) && timeoutSafe uuid T last rest
  | last, Event.transportDisconnect :: rest => timeoutSafe uuid T last rest

/-- A configuration whose fixed-address allow-list entry is written in lowercase
(not the canonical form), with a name pattern matching "SmartPatch". -/
def cfg_lower : Configuration :=
  { connect_device_name_regexes := [fun n => n == "SmartPatch"]
    connect_device_adrs := ["eb:e5:31:bf:2e:b5"]
    device_aliases := []
    characteristics := [ppg_red]
    initial_characteristic_timeout := some 10000000000
    seen_timeout := 20000000000
    log2csv_folder_name := "log_data" }

/-- A scan sighting of the very device of cfg_lower's allow-list, as the radio
reports it. -/
def scanned_dev : ScannedDevice := { address := "eb:e5:31:bf:2e:b5", name := some "SmartPatch" }

/-- The temp characteristic of config.py (no timeout). -/
def temp_char : Characteristic :=
  { name := "temp"
    uuid := "u2"
    timeout := none
    column_headers := ["index", "temp"]
    data_decoder := fun _ => some [[1, 23]] }

/-- A connected ActiveConnection whose shared output queue is bounded to
capacity 1 and currently empty. -/
def sQ1 : ConnState :=
  let s := { initConn cfg0 "EB:E5:31:BF:2E:B5" "SP-Case" { maxsize := 1, items := [] }
             with hasCon := true }
  let s := setState s ConnectionState.CONNECTED
  { s with initial_connection_time := some 0 }

/-- sQ1 after a first temp notification: the single queue slot is taken. -/
def sQ2 : ConnState := notif_callback sQ1 temp_char 5 []

/-- A characteristic whose decoder raises on every notification payload. -/
def bad_char : Characteristic :=
  { name := "ppg_red"
    uuid := "u1"
    timeout := some 1500
    column_headers := ["index", "ppg red"]
    data_decoder := decode_raising }

/-- A configuration with only the undecodable characteristic. -/
def cfg_bad : Configuration :=
  { connect_device_name_regexes := []
    connect_device_adrs := ["EB:E5:31:BF:2E:B5"]
    device_aliases := [("EB:E5:31:BF:2E:B5", "SP-Case")]
    characteristics := [bad_char]
    initial_characteristic_timeout := some 10000
    seen_timeout := 20000
    log2csv_folder_name := "log_data" }

/-- A connected state for cfg_bad. -/
def s_bad : ConnState :=
  let s := { initConn cfg_bad "EB:E5:31:BF:2E:B5" "SP-Case" q0 with hasCon := true }
  let s := setState s ConnectionState.CONNECTED
  { s with initial_connection_time := some 0 }

/-- A schedule of undecodable notifications arriving faster than the 1500 ns
timeout of bad_char, interleaved with polls. -/
def events_bad : List Event :=
  [Event.notif "u1" 1000 [], Event.poll 2000 false,
   Event.notif "u1" 2500 [], Event.poll 3500 false]

/-- An environment whose connection attempt fails. -/
def env_fail : Env :=
  { pre_disconnect := false
    connect := ConnectOutcome.fail
    t_connect := 0
    disconnect_ok := true
    events := [] }

/-- A consumer state holding one writer that has already terminated (its run's
finally clause cleared `active`), keyed under the ppg_red output path of cfg0. -/
def dead_writer_state : ConsumerState :=
  { file_outputs :=
      [(file_path cfg0 "EB:E5:31:BF:2E:B5" ppg_red,
        { active := false, queue := [], column_headers := ppg_red.column_headers })]
    tasksSpawned := 1
    log := []
    halt := false }

/-- A record routed to the dead writer of dead_writer_state. -/
def dead_writer_record : NotifData :=
  { device_adr := "EB:E5:31:BF:2E:B5"
    device_name := "SP-Case"
    characteristic := ppg_red
    data := [[1, 2]]
    raw := [] }

/-- A scanner state at the start of a run. -/
def scan_state0 : ScannerState :=
  { seen_devices := scannerInit cfg0, log := [], halt := false }

/-- A consumer state at the start of a run. -/
def cons_state0 : ConsumerState :=
  { file_outputs := [], tasksSpawned := 0, log := [], halt := false }

/-! ### Helper lemmas -/

theorem alistGet_set_self {β : Type} (l : List (String × β)) (k : String) (v : β) :
    alistGet (alistSet l k v) k = some v := by
  induction l with
  | nil => simp [alistGet, alistSet]
  | cons hd tl ih =>
      obtain ⟨k', w⟩ := hd
      by_cases h : k' = k
      · simp [alistSet, alistGet, h]
      · simp [alistSet, alistGet, h, ih]

theorem alistGet_set_ne {β : Type} (l : List (String × β)) (k key : String) (v : β)
    (h : key ≠ k) : alistGet (alistSet l key v) k = alistGet l k := by
  induction l with
  | nil => simp [alistGet, alistSet, h]
  | cons hd tl ih =>
      obtain ⟨k', w⟩ := hd
      by_cases h' : k' = key
      · subst h'
        simp [alistSet, alistGet, h]
      · by_cases h'' : k' = k <;> simp [alistSet, alistGet, h', h'', Ne.symm h, ih]

theorem doDisconnect_last_notif (s : ConnState) (ok : Bool) :
    (doDisconnect s ok).last_notif = s.last_notif := by
  unfold doDisconnect; split <;> rfl

theorem doDisconnect_state (s : ConnState) (ok : Bool) :
    (doDisconnect s ok).state = s.state := by
  unfold doDisconnect; split <;> rfl

theorem doDisconnect_stateTrace (s : ConnState) (ok : Bool) :
    (doDisconnect s ok).stateTrace = s.stateTrace := by
  unfold doDisconnect; split <;> rfl

theorem doDisconnect_did (s : ConnState) (ok : Bool) (h : s.hasCon = true) :
    (doDisconnect s ok).did_disconnect = true := by
  unfold doDisconnect; simp [h]

theorem doDisconnect_hasCon (s : ConnState) (ok : Bool) :
    (doDisconnect s ok).hasCon = s.hasCon := by
  unfold doDisconnect; split <;> rfl

theorem checkChars_last_notif (cfg : Configuration) (ok : Bool) (now : Nat) :
    ∀ (l : List Characteristic) (s : ConnState),
      (checkChars cfg ok now s l).1.last_notif = s.last_notif := by
  intro l
  induction l with
  | nil => intro s; rfl
  | cons char rest ih =>
      intro s
      unfold checkChars
      cases hT : char.timeout with
      | none => exact ih s
      | some timeout =>
          cases hln : lastNotifOf s char.uuid with
          | some last_notif =>
              by_cases hexp : now - last_notif > timeout
              · simp [hexp, doDisconnect_last_notif]
              · simp [hexp, ih s]
          | none =>
              cases hg : cfg.initial_characteristic_timeout with
              | none => exact ih s
              | some initial =>
                  cases hti : s.initial_connection_time with
                  | none => rfl
                  | some t_init =>
                      by_cases hexp : now - t_init > timeout + initial
                      · simp [hexp, ih, doDisconnect_last_notif]
                      · simp [hexp, ih s]

theorem checkChars_state (cfg : Configuration) (ok : Bool) (now : Nat) :
    ∀ (l : List Characteristic) (s : ConnState),
      (checkChars cfg ok now s l).1.state = s.state := by
  intro l
  induction l with
  | nil => intro s; rfl
  | cons char rest ih =>
      intro s
      unfold checkChars
      cases hT : char.timeout with
      | none => exact ih s
      | some timeout =>
          cases hln : lastNotifOf s char.uuid with
          | some last_notif =>
              by_cases hexp : now - last_notif > timeout
              · simp [hexp, doDisconnect_state]
              · simp [hexp, ih s]
          | none =>
              cases hg : cfg.initial_characteristic_timeout with
              | none => exact ih s
              | some initial =>
                  cases hti : s.initial_connection_time with
                  | none => rfl
                  | some t_init =>
                      by_cases hexp : now - t_init > timeout + initial
                      · simp [hexp, ih, doDisconnect_state]
                      · simp [hexp, ih s]

theorem checkChars_stateTrace (cfg : Configuration) (ok : Bool) (now : Nat) :
    ∀ (l : List Characteristic) (s : ConnState),
      (checkChars cfg ok now s l).1.stateTrace = s.stateTrace := by
  intro l
  induction l with
  | nil => intro s; rfl
  | cons char rest ih =>
      intro s
      unfold checkChars
      cases hT : char.timeout with
      | none => exact ih s
      | some timeout =>
          cases hln : lastNotifOf s char.uuid with
          | some last_notif =>
              by_cases hexp : now - last_notif > timeout
              · simp [hexp, doDisconnect_stateTrace]
              · simp [hexp, ih s]
          | none =>
              cases hg : cfg.initial_characteristic_timeout with
              | none => exact ih s
              | some initial =>
                  cases hti : s.initial_connection_time with
                  | none => rfl
                  | some t_init =>
                      by_cases hexp : now - t_init > timeout + initial
                      · simp [hexp, ih, doDisconnect_stateTrace]
                      · simp [hexp, ih s]

theorem notif_callback_last_notif (s : ConnState) (char : Characteristic)
    (now : Nat) (data : List Nat) :
    (notif_callback s char now data).last_notif
      = alistSet s.last_notif char.uuid (some now) := by
  unfold notif_callback
  cases h : char.data_decoder data with
  | none => rfl
  | some decoded =>
      by_cases hl : decoded.length = 0
      · simp [hl]
      · simp only [hl, if_false]
        split <;> rfl

theorem notif_callback_state (s : ConnState) (char : Characteristic)
    (now : Nat) (data : List Nat) :
    (notif_callback s char now data).state = s.state := by
  unfold notif_callback
  cases h : char.data_decoder data with
  | none => rfl
  | some decoded =>
      by_cases hl : decoded.length = 0
      · simp [hl]
      · simp only [hl, if_false]
        split <;> rfl

theorem notif_callback_stateTrace (s : ConnState) (char : Characteristic)
    (now : Nat) (data : List Nat) :
    (notif_callback s char now data).stateTrace = s.stateTrace := by
  unfold notif_callback
  cases h : char.data_decoder data with
  | none => rfl
  | some decoded =>
      by_cases hl : decoded.length = 0
      · simp [hl]
      · simp only [hl, if_false]
        split <;> rfl

/-! ### Claim C1 -/

/-- C1 counterexample: with the config.py characteristic ppg_red
(timeout 1.5 s, initial grace 10 s), a connection established at time 0 that has
never received a notification, checked at 12 s (past timeout + grace): the
grace-expired branch DOES disconnect the connection — did_disconnect is set and
one transport disconnect is attempted — refuting "the connection is not
disconnected"; only the absence of a raised exception distinguishes it from the
sibling branch. -/
theorem grace_branch_disconnects_cex :
    (check_for_timeout cfg0 true 12000000000 s_grace).1.did_disconnect = true ∧
    (check_for_timeout cfg0 true 12000000000 s_grace).1.disconnectAttempts = 1 ∧
    (check_for_timeout cfg0 true 12000000000 s_grace).2 = none :=
  ⟨rfl, rfl, rfl⟩

/-- C1 (amended): in the health check, for a characteristic with a configured
timeout for which no notification has ever been received, when an initial grace
period is configured and elapsed time since initialConnectTimestamp exceeds
timeout + initialGrace, the implementation logs the warning AND performs
_do_disconnect (did_disconnect set, one transport disconnect attempted), but
raises no ActiveConnectionException: the health-check pass continues over the
remaining characteristics. -/
theorem grace_branch_logs_and_disconnects (cfg : Configuration) (ok : Bool)
    (now : Nat) (s : ConnState) (char : Characteristic) (rest : List Characteristic)
    (T g ti : Nat)
    (hT : char.timeout = some T)
    (hln : lastNotifOf s char.uuid = none)
    (hg : cfg.initial_characteristic_timeout = some g)
    (hti : s.initial_connection_time = some ti)
    (hcon : s.hasCon = true)
    (hexp : now - ti > T + g) :
    ∃ s', checkChars cfg ok now s (char :: rest) = checkChars cfg ok now s' rest ∧
      s'.did_disconnect = true ∧
      s'.disconnectAttempts = s.disconnectAttempts + 1 ∧
      LogEvent.warnNeverReceived s.name char.name ∈ s'.log ∧
      s'.last_notif = s.last_notif := by
  refine ⟨doDisconnect
    { s with log := s.log ++ [LogEvent.warnNeverReceived s.name char.name] } ok,
    ?_, ?_, ?_, ?_, ?_⟩
  · conv_lhs => unfold checkChars
    simp [hT, hln, hg, hti, hexp]
  · exact doDisconnect_did _ ok hcon
  · unfold doDisconnect
    simp [hcon]
  · unfold doDisconnect
    simp [hcon]
  · rw [doDisconnect_last_notif]

/-- C1 witness: the amended statement at the concrete cfg0 / s_grace scenario. -/
theorem grace_branch_logs_and_disconnects_witness :
    ∃ s', checkChars cfg0 true 12000000000 s_grace (ppg_red :: []) =
        checkChars cfg0 true 12000000000 s' [] ∧
      s'.did_disconnect = true ∧
      s'.disconnectAttempts = s_grace.disconnectAttempts + 1 ∧
      LogEvent.warnNeverReceived s_grace.name ppg_red.name ∈ s'.log ∧
      s'.last_notif = s_grace.last_notif :=
  grace_branch_logs_and_disconnects cfg0 true 12000000000 s_grace ppg_red []
    1500000000 10000000000 0 rfl rfl rfl rfl rfl (by decide)

/-! ### Claim C2 -/

/-- C2 counterexample: on the characteristic-timeout path (ppg_red notified at
1 s, polled at 4 s with the 1.5 s timeout expired), the transport disconnect
call is attempted TWICE in one connection lifetime — once inside
_check_for_timeout and once more by the run loop's finally cleanup — refuting
"the transport disconnect call is attempted exactly once per connection". -/
theorem disconnect_attempted_twice_cex :
    (runConn cfg0 "EB:E5:31:BF:2E:B5" "SP-Case" q0 env_timeout).1.disconnectAttempts = 2 ∧
    (runConn cfg0 "EB:E5:31:BF:2E:B5" "SP-Case" q0 env_timeout).1.state
      = ConnectionState.DISCONNECTED :=
  ⟨rfl, rfl⟩

/-- C2 (amended): running _do_disconnect twice leaves the same did_disconnect
flag and connection state as running it once, and each output file handle is
closed exactly once per writer run (zero when opening failed and no handle
exists); but the transport disconnect call is attempted once per invocation, so
two invocations — as happens on the characteristic-timeout path — yield two
disconnect attempts, not one. -/
theorem teardown_observable_effects (s : ConnState) (ok ok' : Bool) (p : String)
    (cols : List String) (fe : Bool) (events : List CSVEvent)
    (hcon : s.hasCon = true) :
    (doDisconnect (doDisconnect s ok) ok').did_disconnect
      = (doDisconnect s ok).did_disconnect ∧
    (doDisconnect (doDisconnect s ok) ok').state = (doDisconnect s ok).state ∧
    (doDisconnect (doDisconnect s ok) ok').disconnectAttempts
      = s.disconnectAttempts + 2 ∧
    (csvLoggerRun p cols fe none events).closeCount = 1 ∧
    (∀ fnf, (csvLoggerRun p cols fe (some fnf) events).closeCount = 0) := by
  have hcon' : (doDisconnect s ok).hasCon = true := by
    rw [doDisconnect_hasCon]; exact hcon
  refine ⟨?_, doDisconnect_state _ _, ?_, rfl, fun fnf => rfl⟩
  · rw [doDisconnect_did _ _ hcon', doDisconnect_did _ _ hcon]
  · unfold doDisconnect
    simp [hcon, hcon']

/-- C2 witness: the amended statement at a concrete connected state. -/
theorem teardown_observable_effects_witness :
    (doDisconnect (doDisconnect s_grace true) true).did_disconnect
      = (doDisconnect s_grace true).did_disconnect ∧
    (doDisconnect (doDisconnect s_grace true) true).state
      = (doDisconnect s_grace true).state ∧
    (doDisconnect (doDisconnect s_grace true) true).disconnectAttempts
      = s_grace.disconnectAttempts + 2 ∧
    (csvLoggerRun "log_data/SP-Case_ppg_red.csv" ["index", "ppg red"] false none []).closeCount = 1 ∧
    (∀ fnf, (csvLoggerRun "log_data/SP-Case_ppg_red.csv" ["index", "ppg red"] false
        (some fnf) []).closeCount = 0) :=
  teardown_observable_effects s_grace true true "log_data/SP-Case_ppg_red.csv"
    ["index", "ppg red"] false [] rfl

/-! ### Claim C3 -/

theorem mem_keysOf_alistSet {β : Type} (l : List (String × β)) (key k : String)
    (v : β) (h : k ∈ keysOf (alistSet l key v)) : k ∈ keysOf l ∨ k = key := by
  induction l with
  | nil =>
      simp [alistSet, keysOf] at h
      exact Or.inr h
  | cons hd tl ih =>
      obtain ⟨k', w⟩ := hd
      by_cases h' : k' = key
      · subst h'
        simp [alistSet, keysOf] at h ⊢
        rcases h with h | h
        · exact Or.inl (Or.inl h)
        · exact Or.inl (Or.inr h)
      · simp [alistSet, h', keysOf] at h ⊢
        rcases h with h | h
        · exact Or.inl (Or.inl h)
        · rcases ih (by simpa [keysOf] using h) with h2 | h2
          · exact Or.inl (Or.inr (by simpa [keysOf] using h2))
          · exact Or.inr h2

theorem tryMatchInsert_keys (cfg : Configuration) (adr : String)
    (dev : ScannedDevice) (adv : AdvertisementData) (t : Nat) :
    ∀ (rs : List (String → Bool)) (tbl : List (String × SeenDevice)) (k : String),
      k ∈ keysOf (tryMatchInsert cfg adr dev adv t rs tbl) →
      k ∈ keysOf tbl ∨ k = adr := by
  intro rs
  induction rs with
  | nil => intro tbl k h; exact Or.inl h
  | cons r rest ih =>
      intro tbl k h
      unfold tryMatchInsert at h
      cases hn : dev.name with
      | none =>
          rw [hn] at h
          exact ih tbl k h
      | some n =>
          rw [hn] at h
          by_cases hr : r n
          · simp only [hr, if_true] at h
            rcases ih _ k h with h2 | h2
            · exact mem_keysOf_alistSet _ _ _ _ h2
            · exact Or.inr h2
          · simp only [hr, if_false] at h
            exact ih tbl k h

theorem updateStep_keys (cfg : Configuration) (t : Nat)
    (tbl : List (String × SeenDevice)) (p : ScannedDevice × AdvertisementData)
    (k : String) (h : k ∈ keysOf (updateStep cfg t tbl p)) :
    k ∈ keysOf tbl ∨ k = normalise_adr p.1.address := by
  unfold updateStep at h
  dsimp only at h
  cases hg : alistGet tbl (normalise_adr p.1.address) with
  | some dev =>
      rw [hg] at h
      exact mem_keysOf_alistSet _ _ _ _ h
  | none =>
      rw [hg] at h
      exact tryMatchInsert_keys cfg _ p.1 p.2 t _ tbl k h

theorem updateFold_keys (cfg : Configuration) (t : Nat) :
    ∀ (devices : List (ScannedDevice × AdvertisementData))
      (tbl : List (String × SeenDevice)) (k : String),
      k ∈ keysOf (devices.foldl (updateStep cfg t) tbl) →
      k ∈ keysOf tbl ∨ ∃ p ∈ devices, k = normalise_adr p.1.address := by
  intro devices
  induction devices with
  | nil => intro tbl k h; exact Or.inl h
  | cons p rest ih =>
      intro tbl k h
      rcases ih (updateStep cfg t tbl p) k h with h2 | h2
      · rcases updateStep_keys cfg t tbl p k h2 with h3 | h3
        · exact Or.inl h3
        · exact Or.inr ⟨p, List.mem_cons_self p rest, h3⟩
      · obtain ⟨q, hq, hk⟩ := h2
        exact Or.inr ⟨q, List.mem_cons_of_mem p hq, hk⟩

theorem keysOf_map_ageStep (cfg : Configuration) (now : Nat)
    (l : List (String × SeenDevice)) :
    keysOf (l.map (ageStep cfg now)) = keysOf l := by
  induction l with
  | nil => rfl
  | cons hd tl ih => simp [keysOf, ageStep, ih]

theorem scannerInitFold_keys (cfg : Configuration) :
    ∀ (adrs : List String) (tbl : List (String × SeenDevice)) (k : String),
      k ∈ keysOf (adrs.foldl (fun tbl adr => alistSet tbl adr (scannerInitDev cfg adr)) tbl) →
      k ∈ keysOf tbl ∨ k ∈ adrs := by
  intro adrs
  induction adrs with
  | nil => intro tbl k h; exact Or.inl h
  | cons adr rest ih =>
      intro tbl k h
      rcases ih _ k h with h2 | h2
      · rcases mem_keysOf_alistSet _ _ _ _ h2 with h3 | h3
        · exact Or.inl h3
        · exact Or.inr (h3 ▸ List.mem_cons_self adr rest)
      · exact Or.inr (List.mem_cons_of_mem adr h2)

/-- C3 counterexample: with the allow-list address written in lowercase,
Scanner.__init__ stores the key verbatim — not in the normalised form — and a
subsequent scan sighting of the very same device is inserted by update under
the normalised key, so the registry ends up with two distinct keys for one
device: the pre-populated lookup and the scanned lookup disagree. -/
theorem prepopulated_key_not_normalised_cex :
    keysOf (scannerInit cfg_lower) = ["eb:e5:31:bf:2e:b5"] ∧
    normalise_adr "eb:e5:31:bf:2e:b5" ≠ "eb:e5:31:bf:2e:b5" ∧
    keysOf (update_seen_devices cfg_lower (scannerInit cfg_lower)
      [(scanned_dev, { rssi := -50 })] 5 5)
      = ["eb:e5:31:bf:2e:b5", "EB:E5:31:BF:2E:B5"] :=
  ⟨rfl, by decide, rfl⟩

/-- C3 (amended): every key that update (_update_seen_devices) adds to the
registry is the normalised form of a scanned address, but the keys
pre-populated from the fixed allow-list at construction time are the allow-list
strings verbatim, with no normalisation applied; the two tables agree only when
the allow-list entries are already written in normalised form. -/
theorem registry_key_provenance (cfg : Configuration)
    (tbl : List (String × SeenDevice))
    (devices : List (ScannedDevice × AdvertisementData)) (t now : Nat) :
    (∀ k, k ∈ keysOf (update_seen_devices cfg tbl devices t now) →
       k ∈ keysOf tbl ∨ ∃ p ∈ devices, k = normalise_adr p.1.address) ∧
    (∀ k, k ∈ keysOf (scannerInit cfg) → k ∈ cfg.connect_device_adrs) := by
  constructor
  · intro k h
    unfold update_seen_devices at h
    rw [keysOf_map_ageStep] at h
    exact updateFold_keys cfg t devices tbl k h
  · intro k h
    unfold scannerInit at h
    rcases scannerInitFold_keys cfg cfg.connect_device_adrs [] k h with h2 | h2
    · simp [keysOf] at h2
    · exact h2

/-- C3 witness: the provenance statement applied to the concrete lowercase
allow-list scenario. -/
theorem registry_key_provenance_witness :
    ("EB:E5:31:BF:2E:B5" ∈ keysOf (scannerInit cfg_lower) ∨
      ∃ p ∈ [(scanned_dev, ({ rssi := -50 } : AdvertisementData))],
        "EB:E5:31:BF:2E:B5" = normalise_adr p.1.address) ∧
    ("eb:e5:31:bf:2e:b5" ∈ cfg_lower.connect_device_adrs) :=
  ⟨(registry_key_provenance cfg_lower (scannerInit cfg_lower)
      [(scanned_dev, { rssi := -50 })] 5 5).1 "EB:E5:31:BF:2E:B5" (by decide),
   (registry_key_provenance cfg_lower (scannerInit cfg_lower)
      [(scanned_dev, { rssi := -50 })] 5 5).2 "eb:e5:31:bf:2e:b5" (by decide)⟩

/-! ### Claim C4 -/

theorem scannerRun_exc (cfg : Configuration) :
    ∀ (pre post : List ScanCycle) (s : ScannerState), s.halt = false →
      (scannerRun cfg (pre ++ ScanCycle.exc :: post) s).halt = true ∧
      LogEvent.errScanner ∈ (scannerRun cfg (pre ++ ScanCycle.exc :: post) s).log := by
  intro pre
  induction pre with
  | nil =>
      intro post s hs
      simp [scannerRun, hs]
  | cons c rest ih =>
      intro post s hs
      rw [List.cons_append]
      cases c with
      | ok devices t now =>
          unfold scannerRun
          simp only [hs, Bool.false_eq_true, if_false]
          exact ih post _ rfl
      | scanTimeout =>
          unfold scannerRun
          simp only [hs, Bool.false_eq_true, if_false]
          exact ih post _ rfl
      | exc =>
          unfold scannerRun
          simp [hs]

theorem consumerRun_exc (cfg : Configuration) :
    ∀ (pre post : List ConsEvent) (cs : ConsumerState),
      (consumerRun cfg (pre ++ ConsEvent.exc :: post) cs).halt = true ∧
      LogEvent.errConsumerLog2csv ∈ (consumerRun cfg (pre ++ ConsEvent.exc :: post) cs).log := by
  intro pre
  induction pre with
  | nil =>
      intro post cs
      simp [consumerRun]
  | cons e rest ih =>
      intro post cs
      rw [List.cons_append]
      cases e with
      | item d =>
          unfold consumerRun
          exact ih post _
      | qTimeout =>
          unfold consumerRun
          exact ih post _
      | exc =>
          unfold consumerRun
          simp

theorem csvLoggerLoop_exc (p : String) :
    ∀ (pre post : List CSVEvent) (written : List FileLine) (log : List LogEvent),
      (∀ e ∈ pre, isCSVExc e = false) →
      (csvLoggerLoop p (pre ++ CSVEvent.exc false :: post) written log).2.2 = true ∧
      LogEvent.errCSVLogger p ∈ (csvLoggerLoop p (pre ++ CSVEvent.exc false :: post) written log).2.1 := by
  intro pre
  induction pre with
  | nil =>
      intro post written log _
      simp [csvLoggerLoop]
  | cons e rest ih =>
      intro post written log hpre
      rw [List.cons_append]
      cases e with
      | item d =>
          unfold csvLoggerLoop
          exact ih post _ _ (fun e he => hpre e (List.mem_cons_of_mem _ he))
      | qTimeout =>
          unfold csvLoggerLoop
          exact ih post _ _ (fun e he => hpre e (List.mem_cons_of_mem _ he))
      | exc fnf =>
          exact absurd (hpre _ (List.mem_cons_self _ _)) (by simp [isCSVExc])

/-- C4: every unexpected (unclassified, i.e. caught only by the generic
`except Exception` handler) exception inside the Scanner loop, the
Consumer_log2csv loop, or a CSVLogger writer loop — including a generic failure
while opening the writer's file — is logged and sets the process-wide halt
flag.  (A FileNotFoundError in CSVLogger is expressly classified by its own
handler and is the one expected exception that does not halt; see C10.) -/
theorem unexpected_exception_halts (cfg cfg' : Configuration)
    (pre1 post1 : List ScanCycle) (s : ScannerState)
    (pre2 post2 : List ConsEvent) (cs : ConsumerState)
    (p : String) (cols : List String) (fe : Bool)
    (pre3 post3 evs : List CSVEvent)
    (hs : s.halt = false)
    (hpre3 : ∀ e ∈ pre3, isCSVExc e = false) :
    ((scannerRun cfg (pre1 ++ ScanCycle.exc :: post1) s).halt = true ∧
      LogEvent.errScanner ∈ (scannerRun cfg (pre1 ++ ScanCycle.exc :: post1) s).log) ∧
    ((consumerRun cfg' (pre2 ++ ConsEvent.exc :: post2) cs).halt = true ∧
      LogEvent.errConsumerLog2csv ∈ (consumerRun cfg' (pre2 ++ ConsEvent.exc :: post2) cs).log) ∧
    ((csvLoggerRun p cols fe none (pre3 ++ CSVEvent.exc false :: post3)).halt = true ∧
      LogEvent.errCSVLogger p ∈ (csvLoggerRun p cols fe none (pre3 ++ CSVEvent.exc false :: post3)).log) ∧
    ((csvLoggerRun p cols fe (some false) evs).halt = true ∧
      LogEvent.errCSVLogger p ∈ (csvLoggerRun p cols fe (some false) evs).log) := by
  refine ⟨scannerRun_exc cfg pre1 post1 s hs,
          consumerRun_exc cfg' pre2 post2 cs, ?_, ?_⟩
  · have h := csvLoggerLoop_exc p pre3 post3
      (if fe then [] else [FileLine.headerLine cols]) [] hpre3
    exact ⟨h.1, h.2⟩
  · simp [csvLoggerRun]

/-- C4 witness: the halting behaviour at concrete loops and states. -/
theorem unexpected_exception_halts_witness :
    ((scannerRun cfg0 ([] ++ ScanCycle.exc :: []) scan_state0).halt = true ∧
      LogEvent.errScanner ∈ (scannerRun cfg0 ([] ++ ScanCycle.exc :: []) scan_state0).log) ∧
    ((consumerRun cfg0 ([] ++ ConsEvent.exc :: []) cons_state0).halt = true ∧
      LogEvent.errConsumerLog2csv ∈ (consumerRun cfg0 ([] ++ ConsEvent.exc :: []) cons_state0).log) ∧
    ((csvLoggerRun "f.csv" ["index"] false none ([] ++ CSVEvent.exc false :: [])).halt = true ∧
      LogEvent.errCSVLogger "f.csv" ∈ (csvLoggerRun "f.csv" ["index"] false none ([] ++ CSVEvent.exc false :: [])).log) ∧
    ((csvLoggerRun "f.csv" ["index"] false (some false) []).halt = true ∧
      LogEvent.errCSVLogger "f.csv" ∈ (csvLoggerRun "f.csv" ["index"] false (some false) []).log) :=
  unexpected_exception_halts cfg0 cfg0 [] [] scan_state0 [] [] cons_state0
    "f.csv" ["index"] false [] [] [] rfl (fun e he => absurd he (List.not_mem_nil e))

/-! ### Claim C7 -/

/-- C7: the notification callback never blocks on the shared output queue — the
push is put_nowait, a total operation.  If the bounded queue is full, exactly
the newest record is dropped (the queue contents, i.e. the records already
enqueued, are untouched) and an error is logged; if it is not full, the record
is appended behind the records already enqueued. -/
theorem notif_queue_drop_newest (s : ConnState) (char : Characteristic)
    (now : Nat) (data : List Nat) (rows : List (List Int))
    (hdec : char.data_decoder data = some rows)
    (hrows : rows.length ≠ 0) :
    (s.output.full = true →
       (notif_callback s char now data).output.items = s.output.items ∧
       LogEvent.errQueueFull s.name ∈ (notif_callback s char now data).log) ∧
    (s.output.full = false →
       (notif_callback s char now data).output.items
         = s.output.items ++
           [{ device_adr := s.adr, device_name := s.name, characteristic := char
              data := rows, raw := data }]) := by
  constructor
  · intro hfull
    unfold notif_callback
    simp only [hdec, hrows, if_false]
    unfold QueueModel.put_nowait
    simp [hfull]
  · intro hfull
    unfold notif_callback
    simp only [hdec, hrows, if_false]
    unfold QueueModel.put_nowait
    simp [hfull]

/-- C7 witness: queue bounded to capacity 1, two temp notifications
back-to-back before the consumer drains — the first is delivered, the second is
dropped with an error logged while the first stays in the queue. -/
theorem notif_queue_drop_newest_witness :
    (notif_callback sQ1 temp_char 5 []).output.items
      = sQ1.output.items ++
        [{ device_adr := sQ1.adr, device_name := sQ1.name, characteristic := temp_char
           data := [[1, 23]], raw := [] }] ∧
    (notif_callback sQ2 temp_char 6 []).output.items = sQ2.output.items ∧
    LogEvent.errQueueFull sQ2.name ∈ (notif_callback sQ2 temp_char 6 []).log :=
  ⟨(notif_queue_drop_newest sQ1 temp_char 5 [] [[1, 23]] rfl (by decide)).2 rfl,
   ((notif_queue_drop_newest sQ2 temp_char 6 [] [[1, 23]] rfl (by decide)).1 rfl).1,
   ((notif_queue_drop_newest sQ2 temp_char 6 [] [[1, 23]] rfl (by decide)).1 rfl).2⟩

/-! ### Claim C10 -/

theorem mem_keysOf_alistSet_of_mem {β : Type} (l : List (String × β))
    (key k : String) (v : β) (h : k ∈ keysOf l) :
    k ∈ keysOf (alistSet l key v) := by
  induction l with
  | nil => simp [keysOf] at h
  | cons hd tl ih =>
      obtain ⟨k', w⟩ := hd
      by_cases h' : k' = key
      · simpa [alistSet, h', keysOf] using h
      · simp [keysOf] at h
        rcases h with h | h
        · simp [alistSet, h', keysOf, h]
        · simp [alistSet, h', keysOf]
          exact Or.inr (by simpa [keysOf] using ih (by simpa [keysOf] using h))

theorem log_to_file_keys (cfg : Configuration) (s : ConsumerState) (d : NotifData)
    (k : String) (h : k ∈ keysOf s.file_outputs) :
    k ∈ keysOf (log_to_file cfg s d).file_outputs := by
  unfold log_to_file
  dsimp only
  cases hg : alistGet s.file_outputs (file_path cfg d.device_adr d.characteristic) with
  | none =>
      rw [alistGet_set_self]
      dsimp only
      exact mem_keysOf_alistSet_of_mem _ _ _ _ (mem_keysOf_alistSet_of_mem _ _ _ _ h)
  | some w =>
      cases hg2 : alistGet s.file_outputs (file_path cfg d.device_adr d.characteristic) with
      | none => exact absurd (hg2 ▸ hg) (by simp)
      | some w' =>
          by_cases ha : w'.active
          · simp only [ha, if_true]
            exact mem_keysOf_alistSet_of_mem _ _ _ _ h
          · simp only [ha, if_false]
            exact h

/-- C10: once a per-file writer has terminated, its key stays in the consumer's
table and every record routed to it is silently discarded — _log_to_file leaves
the consumer state untouched: nothing is enqueued, no new writer task is
spawned, nothing is logged.  Every CSVLogger run ends with `active` cleared
(also when opening the file failed), and _log_to_file never removes keys. -/
theorem dead_writer_silent_discard (cfg : Configuration) (s : ConsumerState)
    (d : NotifData) (w : WriterEntry)
    (hp : alistGet s.file_outputs (file_path cfg d.device_adr d.characteristic) = some w)
    (hw : w.active = false) :
    log_to_file cfg s d = s ∧
    (∀ p cols fe ofail evs, (csvLoggerRun p cols fe ofail evs).active = false) ∧
    (∀ s' d' k, k ∈ keysOf (s' : ConsumerState).file_outputs →
       k ∈ keysOf (log_to_file cfg s' d').file_outputs) := by
  refine ⟨?_, ?_, ?_⟩
  · unfold log_to_file
    simp only [hp]
    simp [hw]
  · intro p cols fe ofail evs
    cases ofail <;> rfl
  · intro s' d' k h
    exact log_to_file_keys cfg s' d' k h

/-- C10 witness: the discard behaviour at a concrete dead writer. -/
theorem dead_writer_silent_discard_witness :
    log_to_file cfg0 dead_writer_state dead_writer_record = dead_writer_state ∧
    (csvLoggerRun "f.csv" ["index"] true none []).active = false :=
  ⟨(dead_writer_silent_discard cfg0 dead_writer_state dead_writer_record
      { active := false, queue := [], column_headers := ppg_red.column_headers }
      rfl rfl).1,
   (dead_writer_silent_discard cfg0 dead_writer_state dead_writer_record
      { active := false, queue := [], column_headers := ppg_red.column_headers }
      rfl rfl).2.1 "f.csv" ["index"] true none []⟩

/-! ### Claim C8 -/

theorem csvLoggerLoop_written (p : String) :
    ∀ (events : List CSVEvent) (written : List FileLine) (log : List LogEvent),
      ∃ extra, (csvLoggerLoop p events written log).1 = written ++ extra ∧
        ∀ l ∈ extra, isHeader l = false := by
  intro events
  induction events with
  | nil =>
      intro written log
      exact ⟨[], by simp [csvLoggerLoop], by simp⟩
  | cons e rest ih =>
      intro written log
      cases e with
      | item d =>
          obtain ⟨extra, h1, h2⟩ := ih (written ++ d.data.map FileLine.dataLine) log
          refine ⟨d.data.map FileLine.dataLine ++ extra, ?_, ?_⟩
          · unfold csvLoggerLoop
            rw [h1, List.append_assoc]
          · intro l hl
            rcases List.mem_append.1 hl with hl | hl
            · obtain ⟨row, hrow, hr⟩ := List.mem_map.1 hl
              rw [← hr]; rfl
            · exact h2 l hl
      | qTimeout =>
          obtain ⟨extra, h1, h2⟩ := ih written log
          exact ⟨extra, by unfold csvLoggerLoop; exact h1, h2⟩
      | exc fnf =>
          exact ⟨[], by simp [csvLoggerLoop], by simp⟩

/-- C8: on the first record for a key, the file name is derived from the
device's alias when one is configured, otherwise from the raw address with ':'
separators normalised to '_', joined with the characteristic's name (spaces
normalised) under the output folder; when the target file does not exist the
writer creates it and writes the characteristic's comma-separated column
headers as the first line; when it already exists the writer appends and never
writes a header line. -/
theorem file_sink_first_record (cfg : Configuration) (adr : String)
    (char : Characteristic) (p : String) (cols : List String)
    (events : List CSVEvent) :
    (∀ a, alistGet cfg.device_aliases adr = some a →
       file_path cfg adr char
         = cfg.log2csv_folder_name ++ "/"
           ++ replaceChar (a ++ "_" ++ char.name ++ ".csv") ' ' '_') ∧
    (alistGet cfg.device_aliases adr = none →
       file_path cfg adr char
         = cfg.log2csv_folder_name ++ "/"
           ++ replaceChar (replaceChar adr ':' '_' ++ "_" ++ char.name ++ ".csv") ' ' '_') ∧
    ((csvLoggerRun p cols false none events).createdNew = true ∧
      (csvLoggerRun p cols false none events).written.head?
        = some (FileLine.headerLine cols)) ∧
    ((csvLoggerRun p cols true none events).createdNew = false ∧
      ∀ l ∈ (csvLoggerRun p cols true none events).written, isHeader l = false) := by
  refine ⟨?_, ?_, ?_, ?_⟩
  · intro a ha
    unfold file_path
    simp [ha]
  · intro ha
    unfold file_path
    simp [ha]
  · constructor
    · rfl
    · obtain ⟨extra, h1, h2⟩ :=
        csvLoggerLoop_written p events [FileLine.headerLine cols] []
      show (csvLoggerLoop p events [FileLine.headerLine cols] []).1.head? = _
      rw [h1]
      rfl
  · constructor
    · rfl
    · obtain ⟨extra, h1, h2⟩ := csvLoggerLoop_written p events [] []
      intro l hl
      have : l ∈ ([] : List FileLine) ++ extra := by
        rw [← h1]; exact hl
      exact h2 l (by simpa using this)

/-- C8 witness: the aliased device of config.py with its ppg_red characteristic
lands in log_data/SP-Case_ppg_red.csv; a fresh file starts with the header
line, an existing one gets no header. -/
theorem file_sink_first_record_witness :
    file_path cfg0 "EB:E5:31:BF:2E:B5" ppg_red
      = "log_data" ++ "/" ++ replaceChar ("SP-Case" ++ "_" ++ "ppg_red" ++ ".csv") ' ' '_' ∧
    (csvLoggerRun "f.csv" ["index", "ppg red"] false none []).written.head?
      = some (FileLine.headerLine ["index", "ppg red"]) ∧
    (∀ l ∈ (csvLoggerRun "f.csv" ["index", "ppg red"] true none []).written,
      isHeader l = false) :=
  ⟨(file_sink_first_record cfg0 "EB:E5:31:BF:2E:B5" ppg_red "f.csv"
      ["index", "ppg red"] []).1 "SP-Case" rfl,
   ((file_sink_first_record cfg0 "EB:E5:31:BF:2E:B5" ppg_red "f.csv"
      ["index", "ppg red"] []).2.2.1).2,
   ((file_sink_first_record cfg0 "EB:E5:31:BF:2E:B5" ppg_red "f.csv"
      ["index", "ppg red"] []).2.2.2).2⟩

/-! ### Claim C6 -/

theorem connLoop_preserves (cfg : Configuration) (ok : Bool) :
    ∀ (evs : List Event) (s : ConnState),
      (connLoop cfg ok evs s).1.state = s.state ∧
      (connLoop cfg ok evs s).1.stateTrace = s.stateTrace := by
  intro evs
  induction evs with
  | nil => intro s; exact ⟨rfl, rfl⟩
  | cons e rest ih =>
      intro s
      cases e with
      | transportDisconnect => exact ih _
      | notif uuid now raw =>
          unfold connLoop
          cases hf : cfg.characteristics.find? (fun c => c.uuid == uuid) with
          | some char =>
              have h := ih (notif_callback s char now raw)
              rw [notif_callback_state, notif_callback_stateTrace] at h
              exact h
          | none => exact ih s
      | poll now halt =>
          unfold connLoop
          by_cases hh : halt
          · simp [hh]
          · simp only [hh, Bool.false_eq_true, if_false]
            by_cases hd : s.did_disconnect
            · simp [hd]
            · simp only [hd, Bool.false_eq_true, if_false]
              cases hc : check_for_timeout cfg ok now s with
              | mk s' r =>
                  have hs' : s'.state = s.state := by
                    have := checkChars_state cfg ok now cfg.characteristics s
                    unfold check_for_timeout at hc
                    rw [hc] at this
                    exact this
                  have ht' : s'.stateTrace = s.stateTrace := by
                    have := checkChars_stateTrace cfg ok now cfg.characteristics s
                    unfold check_for_timeout at hc
                    rw [hc] at this
                    exact this
                  cases r with
                  | some k => exact ⟨hs', ht'⟩
                  | none =>
                      have h := ih s'
                      rw [hs', ht'] at h
                      exact h

theorem loopAndFinalize_spec (cfg : Configuration) (ok : Bool)
    (events : List Event) (s : ConnState)
    (hfin : (loopAndFinalize cfg ok events s).2 = true) :
    (loopAndFinalize cfg ok events s).1.state = ConnectionState.DISCONNECTED ∧
    (loopAndFinalize cfg ok events s).1.stateTrace
      = s.stateTrace ++ [ConnectionState.DISCONNECTED] := by
  have hpres := connLoop_preserves cfg ok events s
  unfold loopAndFinalize at hfin ⊢
  cases hc : connLoop cfg ok events s with
  | mk s' ex =>
      rw [hc] at hpres
      cases ex with
      | ranOut =>
          rw [hc] at hfin
          exact absurd hfin (by simp)
      | haltExit =>
          refine ⟨rfl, ?_⟩
          show (setState (doDisconnect s' ok) ConnectionState.DISCONNECTED).stateTrace = _
          unfold setState
          rw [doDisconnect_stateTrace, hpres.2]
      | raised k =>
          cases k with
          | ace =>
              refine ⟨rfl, ?_⟩
              show (setState (doDisconnect s' ok) ConnectionState.DISCONNECTED).stateTrace = _
              unfold setState
              rw [doDisconnect_stateTrace, hpres.2]
          | generic =>
              refine ⟨rfl, ?_⟩
              show (setState (outerExcept (doDisconnect s' ok)) ConnectionState.DISCONNECTED).stateTrace = _
              unfold setState outerExcept
              dsimp only
              rw [doDisconnect_stateTrace, hpres.2]

/-- C6: every finished run of an ActiveConnection assigns states strictly in
the order CONNECTING → CONNECTED → DISCONNECTED: the state trace is exactly
[CONNECTING, DISCONNECTED] (a failed connection attempt never reaches
CONNECTED) or [CONNECTING, CONNECTED, DISCONNECTED]; no state is revisited and
every finished run ends DISCONNECTED. -/
theorem connection_state_order (cfg : Configuration) (adr name : String)
    (output : QueueModel) (env : Env)
    (hfin : (runConn cfg adr name output env).2 = true) :
    (runConn cfg adr name output env).1.state = ConnectionState.DISCONNECTED ∧
    ((runConn cfg adr name output env).1.stateTrace
        = [ConnectionState.CONNECTING, ConnectionState.DISCONNECTED] ∨
      (runConn cfg adr name output env).1.stateTrace
        = [ConnectionState.CONNECTING, ConnectionState.CONNECTED,
           ConnectionState.DISCONNECTED]) := by
  obtain ⟨pd, co, tc, dok, evs⟩ := env
  cases pd with
  | true =>
      constructor
      · rfl
      · left; rfl
  | false =>
      cases co with
      | fail =>
          constructor
          · rfl
          · left; rfl
      | failSubscribe =>
          constructor
          · rfl
          · left; rfl
      | ok =>
          have hfin' : (loopAndFinalize cfg dok evs
              (connectedState cfg adr name output tc)).2 = true := hfin
          have h := loopAndFinalize_spec cfg dok evs
            (connectedState cfg adr name output tc) hfin'
          refine ⟨h.1, Or.inr ?_⟩
          show (loopAndFinalize cfg dok evs (connectedState cfg adr name output tc)).1.stateTrace = _
          rw [h.2]
          rfl

/-- C6 witness: a run whose connection attempt fails ends finished and
DISCONNECTED, with the two-state trace. -/
theorem connection_state_order_witness :
    (runConn cfg0 "EB:E5:31:BF:2E:B5" "SP-Case" q0 env_fail).1.state
      = ConnectionState.DISCONNECTED ∧
    ((runConn cfg0 "EB:E5:31:BF:2E:B5" "SP-Case" q0 env_fail).1.stateTrace
        = [ConnectionState.CONNECTING, ConnectionState.DISCONNECTED] ∨
      (runConn cfg0 "EB:E5:31:BF:2E:B5" "SP-Case" q0 env_fail).1.stateTrace
        = [ConnectionState.CONNECTING, ConnectionState.CONNECTED,
           ConnectionState.DISCONNECTED]) :=
  connection_state_order cfg0 "EB:E5:31:BF:2E:B5" "SP-Case" q0 env_fail rfl

/-! ### Claim C9 -/

theorem filter_timeoutWarn_append (l : List LogEvent) (e : LogEvent)
    (he : isTimeoutWarn e = false) :
    (l ++ [e]).filter isTimeoutWarn = l.filter isTimeoutWarn := by
  simp [List.filter_append, he]

theorem doDisconnect_log_filter (s : ConnState) (ok : Bool) :
    (doDisconnect s ok).log.filter isTimeoutWarn = s.log.filter isTimeoutWarn := by
  unfold doDisconnect
  split
  · cases ok <;> exact filter_timeoutWarn_append _ _ rfl
  · rfl

theorem notif_callback_log_filter (s : ConnState) (char : Characteristic)
    (now : Nat) (data : List Nat) :
    (notif_callback s char now data).log.filter isTimeoutWarn
      = s.log.filter isTimeoutWarn := by
  unfold notif_callback
  cases h : char.data_decoder data with
  | none => exact filter_timeoutWarn_append _ _ rfl
  | some decoded =>
      by_cases hl : decoded.length = 0
      · simp [hl]
      · simp only [hl, if_false]
        split
        · exact filter_timeoutWarn_append _ _ rfl
        · rfl

theorem lastNotifOf_doDisconnect (s : ConnState) (ok : Bool) (u : String) :
    lastNotifOf (doDisconnect s ok) u = lastNotifOf s u := by
  unfold lastNotifOf
  rw [doDisconnect_last_notif]

theorem lastNotifOf_notif_callback_self (s : ConnState) (char : Characteristic)
    (now : Nat) (data : List Nat) :
    lastNotifOf (notif_callback s char now data) char.uuid = some now := by
  unfold lastNotifOf
  rw [notif_callback_last_notif, alistGet_set_self]

theorem connLoop_no_timeout_warn (cfg : Configuration) (ok : Bool)
    (char : Characteristic) (T : Nat)
    (hchars : cfg.characteristics = [char]) (hT : char.timeout = some T) :
    ∀ (events : List Event) (s : ConnState),
      timeoutSafe char.uuid T (lastNotifOf s char.uuid) events = true →
      (connLoop cfg ok events s).1.log.filter isTimeoutWarn
        = s.log.filter isTimeoutWarn := by
  intro events
  induction events with
  | nil => intro s _; rfl
  | cons e rest ih =>
      intro s hsafe
      cases e with
      | transportDisconnect =>
          simp only [connLoop]
          exact ih { s with did_disconnect := true } hsafe
      | notif uuid t raw =>
          unfold timeoutSafe at hsafe
          simp only [connLoop]
          rw [hchars]
          by_cases hu : char.uuid = uuid
          · have hfind : List.find? (fun c => c.uuid == uuid) [char] = some char := by
              simp [List.find?, hu]
            rw [hfind]
            have hln : lastNotifOf (notif_callback s char t raw) char.uuid = some t :=
              lastNotifOf_notif_callback_self s char t raw
            have hb : (uuid == char.uuid) = true := by simp [hu]
            rw [hb] at hsafe
            rw [ih (notif_callback s char t raw) (by rw [hln]; exact hsafe)]
            exact notif_callback_log_filter s char t raw
          · have hbe : (char.uuid == uuid) = false := by
              simpa using hu
            have hfind : List.find? (fun c => c.uuid == uuid) [char] = none := by
              simp [List.find?, hbe]
            rw [hfind]
            have hb : (uuid == char.uuid) = false := by
              simp
              exact fun h => hu h.symm
            rw [hb] at hsafe
            exact ih s hsafe
      | poll t halt =>
          unfold timeoutSafe at hsafe
          rw [Bool.and_eq_true] at hsafe
          simp only [connLoop]
          by_cases hh : halt = true
          · rw [if_pos hh]
          · rw [if_neg hh]
            by_cases hd : s.did_disconnect = true
            · rw [if_pos hd]
              exact filter_timeoutWarn_append _ _ rfl
            · rw [if_neg hd]
              have hcheck : check_for_timeout cfg ok t s
                  = (match lastNotifOf s char.uuid with
                     | some t0 =>
                         if t - t0 > T then
                           (doDisconnect
                             { s with log := s.log ++
                                 [LogEvent.warnTimeoutExpired s.name char.name] } ok,
                            some RaiseKind.ace)
                         else (s, none)
                     | none =>
                         match cfg.initial_characteristic_timeout with
                         | none => (s, none)
                         | some initial =>
                             match s.initial_connection_time with
                             | none => (s, some RaiseKind.generic)
                             | some t_init =>
                                 if t - t_init > T + initial then
                                   (doDisconnect
                                     { s with log := s.log ++
                                         [LogEvent.warnNeverReceived s.name char.name] } ok,
                                    none)
                                 else (s, none)) := by
                unfold check_for_timeout
                rw [hchars]
                unfold checkChars
                rw [hT]
                cases lastNotifOf s char.uuid with
                | some t0 =>
                    by_cases hx : t - t0 > T
                    · simp [hx, checkChars]
                    · simp [hx, checkChars]
                | none =>
                    cases cfg.initial_characteristic_timeout with
                    | none => simp [checkChars]
                    | some initial =>
                        cases s.initial_connection_time with
                        | none => simp
                        | some t_init =>
                            by_cases hx : t - t_init > T + initial
                            · simp [hx, checkChars]
                            · simp [hx, checkChars]
              cases hln : lastNotifOf s char.uuid with
              | some t0 =>
                  rw [hln] at hcheck hsafe
                  dsimp only at hcheck
                  have hx : ¬ (t - t0 > T) := by
                    have h1 := hsafe.1
                    simp at h1
                    omega
                  rw [if_neg hx] at hcheck
                  rw [hcheck]
                  dsimp only
                  exact ih s (by rw [hln]; exact hsafe.2)
              | none =>
                  rw [hln] at hcheck hsafe
                  dsimp only at hcheck
                  cases hgi : cfg.initial_characteristic_timeout with
                  | none =>
                      rw [hgi] at hcheck
                      dsimp only at hcheck
                      rw [hcheck]
                      dsimp only
                      exact ih s (by rw [hln]; exact hsafe.2)
                  | some initial =>
                      rw [hgi] at hcheck
                      dsimp only at hcheck
                      cases hit : s.initial_connection_time with
                      | none =>
                          rw [hit] at hcheck
                          dsimp only at hcheck
                          rw [hcheck]
                      | some t_init =>
                          rw [hit] at hcheck
                          dsimp only at hcheck
                          by_cases hx : t - t_init > T + initial
                          · rw [if_pos hx] at hcheck
                            rw [hcheck]
                            dsimp only
                            refine Eq.trans (ih _ ?_) ?_
                            · rw [lastNotifOf_doDisconnect]
                              unfold lastNotifOf
                              unfold lastNotifOf at hln
                              dsimp only
                              rw [hln]
                              exact hsafe.2
                            · rw [doDisconnect_log_filter]
                              exact filter_timeoutWarn_append _ _ rfl
                          · rw [if_neg hx] at hcheck
                            rw [hcheck]
                            dsimp only
                            exact ih s (by rw [hln]; exact hsafe.2)

/-- C9: the notification callback records the timestamp against the
characteristic BEFORE decoding, so the per-characteristic last-notification
time is updated for every incoming notification — also when the decoder raises
or yields an empty sequence; consequently, a device whose notifications for the
characteristic keep arriving within the timeout (decodable or not) never makes
the run loop log the characteristic-timeout warning. -/
theorem undecodable_notifications_keep_alive (cfg : Configuration) (ok : Bool)
    (char : Characteristic) (T : Nat) (events : List Event) (s : ConnState)
    (hchars : cfg.characteristics = [char]) (hT : char.timeout = some T)
    (hsafe : timeoutSafe char.uuid T (lastNotifOf s char.uuid) events = true) :
    (∀ (s' : ConnState) (now : Nat) (data : List Nat),
       lastNotifOf (notif_callback s' char now data) char.uuid = some now) ∧
    (connLoop cfg ok events s).1.log.filter isTimeoutWarn
      = s.log.filter isTimeoutWarn :=
  ⟨fun s' now data => lastNotifOf_notif_callback_self s' char now data,
   connLoop_no_timeout_warn cfg ok char T hchars hT events s hsafe⟩

/-- C9 witness: a device sending notifications whose decoder always raises, at
1000 and 2500 ns with polls at 2000 and 3500 ns against a 1500 ns timeout: the
last-notification time is refreshed by every undecodable notification and no
characteristic-timeout warning is ever logged. -/
theorem undecodable_notifications_keep_alive_witness :
    (∀ (s' : ConnState) (now : Nat) (data : List Nat),
       lastNotifOf (notif_callback s' bad_char now data) bad_char.uuid = some now) ∧
    (connLoop cfg_bad true events_bad s_bad).1.log.filter isTimeoutWarn
      = s_bad.log.filter isTimeoutWarn :=
  undecodable_notifications_keep_alive cfg_bad true bad_char 1500 events_bad s_bad
    rfl rfl (by decide)

/-! ### Claim C5 -/

theorem lastNotifOf_notif_callback_ne (s : ConnState) (char : Characteristic)
    (now : Nat) (data : List Nat) (u : String) (h : char.uuid ≠ u) :
    lastNotifOf (notif_callback s char now data) u = lastNotifOf s u := by
  unfold lastNotifOf
  rw [notif_callback_last_notif, alistGet_set_ne _ _ _ _ h]

theorem connLoop_append (cfg : Configuration) (ok : Bool) :
    ∀ (A B : List Event) (s : ConnState),
      connLoop cfg ok (A ++ B) s =
        match connLoop cfg ok A s with
        | (s', LoopExit.ranOut) => connLoop cfg ok B s'
        | r => r := by
  intro A
  induction A with
  | nil => intro B s; rfl
  | cons e rest ih =>
      intro B s
      rw [List.cons_append]
      cases e with
      | transportDisconnect =>
          simp only [connLoop]
          exact ih B _
      | notif uuid t raw =>
          simp only [connLoop]
          cases cfg.characteristics.find? (fun c => c.uuid == uuid) with
          | some c => exact ih B _
          | none => exact ih B _
      | poll t halt =>
          simp only [connLoop]
          by_cases hh : halt = true
          · rw [if_pos hh, if_pos hh]
          · rw [if_neg hh, if_neg hh]
            by_cases hd : s.did_disconnect = true
            · rw [if_pos hd, if_pos hd]
            · rw [if_neg hd, if_neg hd]
              cases hc : check_for_timeout cfg ok t s with
              | mk s' r =>
                  cases r with
                  | some k => rfl
                  | none => exact ih B s'

theorem checkChars_expired (cfg : Configuration) (ok : Bool) (now : Nat) :
    ∀ (l : List Characteristic) (s : ConnState) (char : Characteristic) (T t0 : Nat),
      char ∈ l → char.timeout = some T → lastNotifOf s char.uuid = some t0 →
      t0 + T < now → (checkChars cfg ok now s l).2 ≠ none := by
  intro l
  induction l with
  | nil =>
      intro s char T t0 hmem
      exact absurd hmem (List.not_mem_nil _)
  | cons c rest ih =>
      intro s char T t0 hmem hT hln hexp
      unfold checkChars
      rcases List.mem_cons.1 hmem with hc | hc
      · subst hc
        rw [hT, hln]
        have hgt : now - t0 > T := by omega
        simp only [gt_iff_lt] at hgt ⊢
        rw [if_pos hgt]
        simp
      · cases hct : c.timeout with
        | none => exact ih s char T t0 hc hT hln hexp
        | some timeout =>
            dsimp only
            cases hcl : lastNotifOf s c.uuid with
            | some ln =>
                dsimp only
                by_cases h2 : now - ln > timeout
                · rw [if_pos h2]
                  simp
                · rw [if_neg h2]
                  exact ih s char T t0 hc hT hln hexp
            | none =>
                dsimp only
                cases hgi : cfg.initial_characteristic_timeout with
                | none => exact ih s char T t0 hc hT hln hexp
                | some g =>
                    dsimp only
                    cases hit : s.initial_connection_time with
                    | none => simp
                    | some ti =>
                        dsimp only
                        by_cases h2 : now - ti > timeout + g
                        · rw [if_pos h2]
                          refine ih _ char T t0 hc hT ?_ hexp
                          rw [lastNotifOf_doDisconnect]
                          exact hln
                        · rw [if_neg h2]
                          exact ih s char T t0 hc hT hln hexp

theorem connLoop_poll_exits (cfg : Configuration) (ok : Bool) (t : Nat)
    (hflag : Bool) (rest : List Event) (s : ConnState) (char : Characteristic)
    (T t0 : Nat) (hchar : char ∈ cfg.characteristics) (hT : char.timeout = some T)
    (hln : lastNotifOf s char.uuid = some t0) (hexp : t0 + T < t) :
    connLoop cfg ok (Event.poll t hflag :: rest) s
      = connLoop cfg ok [Event.poll t hflag] s ∧
    (connLoop cfg ok [Event.poll t hflag] s).2 ≠ LoopExit.ranOut := by
  have hr : (check_for_timeout cfg ok t s).2 ≠ none :=
    checkChars_expired cfg ok t cfg.characteristics s char T t0 hchar hT hln hexp
  simp only [connLoop]
  by_cases hh : hflag = true
  · rw [if_pos hh, if_pos hh]
    exact ⟨rfl, by simp⟩
  · rw [if_neg hh, if_neg hh]
    by_cases hd : s.did_disconnect = true
    · rw [if_pos hd, if_pos hd]
      exact ⟨rfl, by simp⟩
    · rw [if_neg hd, if_neg hd]
      cases hc : check_for_timeout cfg ok t s with
      | mk s' r =>
          cases r with
          | some k => exact ⟨rfl, by simp⟩
          | none => exact absurd (by rw [hc]) hr

theorem connLoop_reaches_poll (cfg : Configuration) (ok : Bool)
    (char : Characteristic) (T t0 t : Nat) (hflag : Bool)
    (hchar : char ∈ cfg.characteristics) (hT : char.timeout = some T)
    (hexp : t0 + T < t) :
    ∀ (pre2 post : List Event) (s : ConnState),
      lastNotifOf s char.uuid = some t0 →
      (∀ e ∈ pre2, notifFor char.uuid e = false) →
      connLoop cfg ok (pre2 ++ Event.poll t hflag :: post) s
        = connLoop cfg ok (pre2 ++ [Event.poll t hflag]) s ∧
      (connLoop cfg ok (pre2 ++ [Event.poll t hflag]) s).2 ≠ LoopExit.ranOut := by
  intro pre2
  induction pre2 with
  | nil =>
      intro post s hln _
      simpa using connLoop_poll_exits cfg ok t hflag post s char T t0 hchar hT hln hexp
  | cons e rest ih =>
      intro post s hln hno
      have hno' : ∀ x ∈ rest, notifFor char.uuid x = false :=
        fun x hx => hno x (List.mem_cons_of_mem _ hx)
      rw [List.cons_append, List.cons_append]
      cases e with
      | transportDisconnect =>
          simp only [connLoop]
          exact ih post { s with did_disconnect := true } hln hno'
      | notif uuid tt raw =>
          have hne : char.uuid ≠ uuid := by
            have h1 := hno _ (List.mem_cons_self _ _)
            unfold notifFor at h1
            intro h2
            rw [h2] at h1
            simp at h1
          simp only [connLoop]
          cases hf : cfg.characteristics.find? (fun c => c.uuid == uuid) with
          | some c =>
              have hcu : c.uuid = uuid := by
                have := List.find?_some hf
                simpa using this
              refine ih post (notif_callback s c tt raw) ?_ hno'
              rw [lastNotifOf_notif_callback_ne]
              · exact hln
              · rw [hcu]
                exact fun h => hne h.symm
          | none => exact ih post s hln hno'
      | poll tt hh =>
          simp only [connLoop]
          by_cases hhh : hh = true
          · rw [if_pos hhh, if_pos hhh]
            exact ⟨rfl, by simp⟩
          · rw [if_neg hhh, if_neg hhh]
            by_cases hd : s.did_disconnect = true
            · rw [if_pos hd, if_pos hd]
              exact ⟨rfl, by simp⟩
            · rw [if_neg hd, if_neg hd]
              cases hc : check_for_timeout cfg ok tt s with
              | mk s' r =>
                  cases r with
                  | some k => exact ⟨rfl, by simp⟩
                  | none =>
                      refine ih post s' ?_ hno'
                      have hpres : s'.last_notif = s.last_notif := by
                        have := checkChars_last_notif cfg ok tt cfg.characteristics s
                        unfold check_for_timeout at hc
                        rw [hc] at this
                        exact this
                      unfold lastNotifOf
                      rw [hpres]
                      exact hln

theorem loopAndFinalize_finished (cfg : Configuration) (ok : Bool)
    (events : List Event) (s : ConnState)
    (h : (connLoop cfg ok events s).2 ≠ LoopExit.ranOut) :
    (loopAndFinalize cfg ok events s).2 = true := by
  unfold loopAndFinalize
  cases hc : connLoop cfg ok events s with
  | mk s' ex =>
      rw [hc] at h
      cases ex with
      | ranOut => exact absurd rfl h
      | haltExit => rfl
      | raised k => cases k <;> rfl

/-- C5: with a characteristic of timeout T whose last notification was at t0
and no further notification for it before the first poll at a time past
t0 + T, the run is finished and its state is DISCONNECTED, and the whole run
equals the run truncated at that poll: teardown happens at the first polling
iteration after expiry, so the connection is down by t0 + T + ε with ε bounded
by the polling cadence plus teardown time. -/
theorem characteristic_timeout_teardown (cfg : Configuration) (adr name : String)
    (output : QueueModel) (env : Env) (char : Characteristic) (T t0 t : Nat)
    (raw : List Nat) (hflag : Bool) (pre1 pre2 post : List Event)
    (hconn : env.connect = ConnectOutcome.ok)
    (hev : env.events
      = pre1 ++ Event.notif char.uuid t0 raw :: (pre2 ++ Event.poll t hflag :: post))
    (hchar : char ∈ cfg.characteristics)
    (hT : char.timeout = some T)
    (hno : ∀ e ∈ pre2, notifFor char.uuid e = false)
    (hexp : t0 + T < t) :
    (runConn cfg adr name output env).1.state = ConnectionState.DISCONNECTED ∧
    (runConn cfg adr name output env).2 = true ∧
    runConn cfg adr name output env
      = runConn cfg adr name output
          { env with events
              := pre1 ++ Event.notif char.uuid t0 raw :: (pre2 ++ [Event.poll t hflag]) } := by
  obtain ⟨pd, co, tc, dok, evs⟩ := env
  dsimp only at hconn hev
  subst hconn
  subst hev
  cases pd with
  | true => exact ⟨rfl, rfl, rfl⟩
  | false =>
      -- both runs reduce to loopAndFinalize on the connected state
      have hkey : ∀ s1 : ConnState,
          connLoop cfg dok
            (pre1 ++ Event.notif char.uuid t0 raw :: (pre2 ++ Event.poll t hflag :: post)) s1
          = connLoop cfg dok
            (pre1 ++ Event.notif char.uuid t0 raw :: (pre2 ++ [Event.poll t hflag])) s1 ∧
          (connLoop cfg dok
            (pre1 ++ Event.notif char.uuid t0 raw :: (pre2 ++ [Event.poll t hflag])) s1).2
            ≠ LoopExit.ranOut := by
        intro s1
        rw [connLoop_append cfg dok pre1, connLoop_append cfg dok pre1]
        cases hc1 : connLoop cfg dok pre1 s1 with
        | mk s2 e1 =>
            cases e1 with
            | haltExit => exact ⟨rfl, by simp⟩
            | raised k => exact ⟨rfl, by simp⟩
            | ranOut =>
                show connLoop cfg dok (Event.notif char.uuid t0 raw :: (pre2 ++ Event.poll t hflag :: post)) s2
                    = connLoop cfg dok (Event.notif char.uuid t0 raw :: (pre2 ++ [Event.poll t hflag])) s2 ∧ _
                simp only [connLoop]
                obtain ⟨c, hf, hcu⟩ : ∃ c, cfg.characteristics.find?
                    (fun c => c.uuid == char.uuid) = some c ∧ c.uuid = char.uuid := by
                  cases hf : cfg.characteristics.find? (fun c => c.uuid == char.uuid) with
                  | none =>
                      exfalso
                      have := List.find?_eq_none.1 hf char hchar
                      simp at this
                  | some c =>
                      refine ⟨c, rfl, ?_⟩
                      have := List.find?_some hf
                      simpa using this
                rw [hf]
                refine connLoop_reaches_poll cfg dok char T t0 t hflag hchar hT hexp
                  pre2 post (notif_callback s2 c t0 raw) ?_ hno
                have : lastNotifOf (notif_callback s2 c t0 raw) c.uuid = some t0 :=
                  lastNotifOf_notif_callback_self s2 c t0 raw
                rw [hcu] at this
                exact this
      have h1 := hkey (connectedState cfg adr name output tc)
      have hfin : (runConn cfg adr name output
          { pre_disconnect := false, connect := ConnectOutcome.ok, t_connect := tc,
            disconnect_ok := dok,
            events := pre1 ++ Event.notif char.uuid t0 raw :: (pre2 ++ Event.poll t hflag :: post) }).2
          = true := by
        show (loopAndFinalize cfg dok _ (connectedState cfg adr name output tc)).2 = true
        refine loopAndFinalize_finished cfg dok _ _ ?_
        rw [h1.1]
        exact h1.2
      refine ⟨?_, hfin, ?_⟩
      · have hspec := loopAndFinalize_spec cfg dok
          (pre1 ++ Event.notif char.uuid t0 raw :: (pre2 ++ Event.poll t hflag :: post))
          (connectedState cfg adr name output tc) hfin
        exact hspec.1
      · show loopAndFinalize cfg dok _ (connectedState cfg adr name output tc)
            = loopAndFinalize cfg dok _ (connectedState cfg adr name output tc)
        unfold loopAndFinalize
        rw [h1.1]

/-- C5 witness: cfg0's ppg_red (T = 1.5e9 ns) notified at 1e9 ns, polled at
4e9 ns with nothing further: the run is finished, DISCONNECTED, and equal to
the run truncated at that poll. -/
theorem characteristic_timeout_teardown_witness :
    (runConn cfg0 "EB:E5:31:BF:2E:B5" "SP-Case" q0 env_timeout).1.state
      = ConnectionState.DISCONNECTED ∧
    (runConn cfg0 "EB:E5:31:BF:2E:B5" "SP-Case" q0 env_timeout).2 = true ∧
    runConn cfg0 "EB:E5:31:BF:2E:B5" "SP-Case" q0 env_timeout
      = runConn cfg0 "EB:E5:31:BF:2E:B5" "SP-Case" q0
          { env_timeout with events
              := [] ++ Event.notif ppg_red.uuid 1000000000 [] ::
                  ([] ++ [Event.poll 4000000000 false]) } :=
  characteristic_timeout_teardown cfg0 "EB:E5:31:BF:2E:B5" "SP-Case" q0 env_timeout
    ppg_red 1500000000 1000000000 4000000000 [] false [] [] []
    rfl rfl (List.mem_cons_self ppg_red []) rfl
    (fun e he => absurd he (List.not_mem_nil e)) (by decide)

end BLELog
